import Mathlib

/-!
Verification of the DataClaw CSV analysis server (`src/server.py`) against its
design specification.  The Python source is shallowly embedded: pandas series
become Lean lists, missing values (`NaN`) become `Option.none`, floating-point
numbers become `Rat`, and the filesystem / pandas readers appearing in the
control flow of `load_csv_robust` are abstracted as oracle records so that the
error-propagation structure of the code can be stated and proved.
-/

namespace DataClaw

/-- Characters kept by the cleaning step `str.replace(r"[^\d.,\-]", "", regex=True)`
in `coerce_numeric_if_majority`: digits, period, comma and minus survive. -/
def keptChar (c : Char) : Bool :=
  c.isDigit || c == '.' || c == ',' || c == '-'

/-- `series.astype(str)` on one cell of a pandas object column: a present string
is unchanged and a missing value (`NaN`) renders as the text `"nan"`. -/
def astype_str : Option String → String
  | some s => s
  | none => "nan"

/-- The character-level cleaning of `coerce_numeric_if_majority`: drop every
character outside `[\d.,\-]`, then replace `,` by `.` (locale normalization). -/
def normalizeCell (s : String) : List Char :=
  (s.data.filter keptChar).map (fun c => if c == ',' then '.' else c)

/-- Value of a digit string, most significant digit first. -/
def digitsToNat (ds : List Char) : Nat :=
  ds.foldl (fun n c => 10 * n + (c.toNat - 48)) 0

/-- `pd.to_numeric(·, errors="coerce")` on a cleaned cell restricted to the
alphabet `[\d.\-]` that cleaning produces: an unsigned numeral is digits with
at most one period and at least one digit overall; anything else is `none`. -/
def parseUnsigned (cs : List Char) : Option Rat :=
  let ip := cs.takeWhile Char.isDigit
  match cs.drop ip.length with
  | [] => if ip.isEmpty then none else some ((digitsToNat ip : Nat) : Rat)
  | '.' :: fp =>
    if fp.all Char.isDigit && !(ip.isEmpty && fp.isEmpty) then
      some (((digitsToNat ip : Nat) : Rat) + ((digitsToNat fp : Nat) : Rat) / (10 : Rat) ^ fp.length)
    else none
  | _ => none

/-- A cleaned numeral with an optional single leading minus sign. -/
def parseSigned : List Char → Option Rat
  | '-' :: rest => (parseUnsigned rest).map (fun q => -q)
  | cs => parseUnsigned cs

/-- Full per-cell pipeline of `coerce_numeric_if_majority`:
`astype(str)`, strip, normalize decimal separator, numeric parse;
`none` is the "missing" marker produced by `errors="coerce"`. -/
def parseCell (cell : Option String) : Option Rat :=
  parseSigned (normalizeCell (astype_str cell))

/-- A resolved column: either still text or committed to numeric, where a
numeric column marks unparseable cells as missing (`none`). -/
inductive Column where
  | text (cells : List (Option String))
  | numeric (cells : List (Option Rat))
deriving DecidableEq

/-- `valid_ratio = converted.notna().sum() / max(len(series), 1)`. -/
def valid_ratio (cells : List (Option String)) : Rat :=
  (((cells.map parseCell).countP Option.isSome : Nat) : Rat) / ((max cells.length 1 : Nat) : Rat)

/-- `coerce_numeric_if_majority(series, threshold)`: commit the converted
column when `valid_ratio >= threshold`, else return the original series. -/
def coerce_numeric_if_majority (cells : List (Option String)) (threshold : Rat) : Column :=
  if threshold ≤ valid_ratio cells then Column.numeric (cells.map parseCell)
  else Column.text cells

/-- One raw table row: each cell is a present string or missing (`NaN`). -/
abbrev Row := List (Option String)

/-- Is every cell of the row missing?  (`dropna(how="all")` removes such rows.) -/
def rowAllMissing (r : Row) : Bool := r.all Option.isNone

/-- `df.dropna(how="all")`: keep the rows that have at least one present cell. -/
def dropna_all (t : List Row) : List Row := t.filter (fun r => !rowAllMissing r)

/-- `df.drop_duplicates()`: keep the first occurrence of every row value. -/
def drop_duplicates : List Row → List Row
  | [] => []
  | r :: rs => r :: drop_duplicates (rs.filter (fun x => x ≠ r))
termination_by t => t.length
decreasing_by exact Nat.lt_succ_of_le (List.length_filter_le _ _)

/-- The row-level cleaning `df.drop_duplicates().dropna(how="all")` shared by
`load_csv_robust` and `clean_csv` (the trailing `reset_index` only renumbers). -/
def clean_table (t : List Row) : List Row := dropna_all (drop_duplicates t)

/-- The row counts reported by one `clean_csv` run together with the table it
writes out. -/
structure CleanReport where
  table : List Row
  linhas_antes : Nat
  linhas_depois : Nat
deriving DecidableEq

/-- The row-level content of `clean_csv`: record `len(df_raw)`, clean, record
`len(df_clean)`, and write the cleaned table (the semicolon/utf-8 CSV
write-then-read round trip through `outputs/<name>` is the identity on this
row model, so a second run receives `table` itself). -/
def clean_csv_rows (t : List Row) : CleanReport :=
  ⟨clean_table t, t.length, (clean_table t).length⟩

/-- A pandas data frame as used by the server: the ordered column names and
the cell grid (row major).  `detectar_colunas` inspects only `columns`. -/
structure DataFrame where
  columns : List String
  rows : List (List (Option String))
deriving DecidableEq

/-- Does the second character list start with the first one? -/
def leadingMatch : List Char → List Char → Bool
  | [], _ => true
  | _ :: _, [] => false
  | p :: ps, c :: cs => p == c && leadingMatch ps cs

/-- Does `pat` occur contiguously inside the second list?  (Python `in`.) -/
def containsSeq (pat : List Char) : List Char → Bool
  | [] => pat.isEmpty
  | c :: cs => leadingMatch pat (c :: cs) || containsSeq pat cs

/-- `k in c.lower()`: keyword containment in the lowercased column name. -/
def kwInName (c : String) (k : String) : Bool :=
  containsSeq k.data (c.data.map Char.toLower)

def value_keywords : List String := ["total", "valor", "receita", "faturamento", "preco", "price"]

def date_keywords : List String := ["data", "date", "dt_", "_dt", "periodo"]

def cat_keywords : List String := ["categoria", "produto", "vendedor", "status", "cidade"]

/-- `any(k in c.lower() for k in kws)`. -/
def roleMatch (kws : List String) (c : String) : Bool :=
  kws.any (fun k => kwInName c k)

/-- `detectar_colunas(df)`: for each of the three roles, `next(...)` over the
columns in order returns the first whose lowercased name contains one of the
role's keywords, or `None` when no column matches. -/
def detectar_colunas (df : DataFrame) : Option String × Option String × Option String :=
  (df.columns.find? (roleMatch value_keywords),
   df.columns.find? (roleMatch date_keywords),
   df.columns.find? (roleMatch cat_keywords))

/-- Oracles for the filesystem and the pandas readers that `load_csv_robust`
consults, in the order the code consults them: `expandUser` is
`os.path.expanduser`, `pathExists` is `os.path.exists`, `readFixed enc` is
`pd.read_csv(file_path, sep=";", decimal=",", encoding=enc,
on_bad_lines="skip")` with a raised exception as `.error`, and `readAuto` is
the `sep=None, decimal=".", encoding="utf-8", engine="python"` fallback. -/
structure CsvEnv where
  expandUser : String → String
  pathExists : String → Bool
  readFixed : String → Except String (List Row)
  readAuto : Except String (List Row)

/-- The fixed fallback order `["utf-8", "latin-1", "cp1252"]` of the source. -/
def encodings : List String := ["utf-8", "latin-1", "cp1252"]

/-- The `for enc in [...]` loop: the first fixed-format parse that does not
raise wins, and every exception (decode error or otherwise) moves on. -/
def tryEncodings (env : CsvEnv) : List String → Option (List Row)
  | [] => none
  | e :: rest =>
    match env.readFixed e with
    | .ok t => some t
    | .error _ => tryEncodings env rest

/-- Post-parse step of `load_csv_robust`: drop duplicate and fully-empty
rows, then run the 70% numeric coercion on every (textual) column. -/
def processLoaded (t : List Row) : List Column :=
  (clean_table t).transpose.map (fun col => coerce_numeric_if_majority col (7 / 10))

/-- Outcome of `load_csv_robust`: `FileNotFoundError`, the final
`ValueError` (the spec's UnreadableFile) carrying the underlying cause, or a
typed table. -/
inductive LoadResult where
  | fileNotFound (msg : String)
  | unreadableFile (cause : String)
  | ok (table : List Column)
deriving DecidableEq

/-- `load_csv_robust`: expanduser, existence check raising
`FileNotFoundError` first, the encoding fallback loop, then the
automatic-delimiter fallback whose own exception becomes the `ValueError`
message carrying the underlying cause. -/
def load_csv_robust (path : String) (env : CsvEnv) : LoadResult :=
  if env.pathExists (env.expandUser path) = false then
    .fileNotFound ("Arquivo não encontrado: " ++ env.expandUser path)
  else
    match tryEncodings env encodings with
    | some t => .ok (processLoaded t)
    | none =>
      match env.readAuto with
      | .ok t => .ok (processLoaded t)
      | .error e => .unreadableFile ("Não foi possível ler o arquivo: " ++ e)

/-- The report-building phase of `analyze_csv` after a successful load,
abstracted as an oracle: any pandas/matplotlib failure inside the `try` body
surfaces as `.error`, success as the finished report text. -/
structure AnalyzeEnv where
  path : String
  csv : CsvEnv
  buildReport : List Column → Except String String

/-- `analyze_csv`: load then build the report inside `try`; the
`except Exception` boundary turns every internal failure into the
user-readable error string that is returned, never raised. -/
def analyze_csv (env : AnalyzeEnv) : Except String String :=
  match
    (match load_csv_robust env.path env.csv with
     | .fileNotFound m => Except.error m
     | .unreadableFile c => Except.error c
     | .ok df => env.buildReport df) with
  | .ok report => .ok report
  | .error e => .ok ("❌ Erro na análise: " ++ e ++
      "\nDica: verifique o caminho do arquivo e se é um CSV válido.")

/-- Oracles for `clean_csv`: the direct fixed-format read (no fallback
chain) and the CSV write to `outputs/<output_name>`, each able to raise. -/
structure CleanEnv where
  read : Except String (List Row)
  write : List Row → Except String String

/-- The status message of a successful `clean_csv` run. -/
def cleanReportMsg (outPath : String) (antes depois : Nat) : String :=
  "✅ CSV limpo salvo em: " ++ outPath ++ "\n   Linhas antes: " ++ toString antes ++
    "\n   Linhas depois: " ++ toString depois ++ "\n   Removidas: " ++
    toString (antes - depois) ++ " (duplicadas/vazias)"

/-- `clean_csv`: read, clean, write, report the row counts; the boundary
turns every internal failure into the returned error line. -/
def clean_csv (env : CleanEnv) : Except String String :=
  match
    (match env.read with
     | .error e => Except.error e
     | .ok t =>
       match env.write (clean_csv_rows t).table with
       | .error e => Except.error e
       | .ok outPath =>
         Except.ok (cleanReportMsg outPath (clean_csv_rows t).linhas_antes
           (clean_csv_rows t).linhas_depois)) with
  | .ok s => .ok s
  | .error e => .ok ("❌ Erro na limpeza: " ++ e)

/-- `df[col].isna().sum() / len(df) * 100`: percentage of missing cells of
one column relative to the `n` sampled rows (display rounding elided). -/
def pctNull (col : List (Option String)) (n : Nat) : Rat :=
  ((col.countP Option.isNone : Nat) : Rat) / ((n : Nat) : Rat) * 100

/-- First non-missing value of a column truncated to 30 characters, or the
em dash when the column is entirely missing. -/
def firstExample (col : List (Option String)) : String :=
  match col.filterMap id with
  | [] => "—"
  | v :: _ => ⟨v.data.take 30⟩

/-- One markdown row of the diagnostic table of `csv_info`. -/
def infoLine (n : Nat) (name : String) (col : List (Option String)) : String :=
  "| " ++ name ++ " | object | " ++ toString (pctNull col n) ++ "% | " ++
    firstExample col ++ " |\n"

/-- The per-column diagnostic table of `csv_info` over the sampled frame. -/
def infoReport (df : DataFrame) : String :=
  "| Coluna | Tipo | % Nulos | Exemplo |\n|--------|------|---------|--------|\n" ++
    String.join (List.zipWith (infoLine df.rows.length) df.columns df.rows.transpose)

/-- Oracle for the single bounded read (`nrows=1000`) of `csv_info`. -/
structure InfoEnv where
  read : Except String DataFrame

/-- `csv_info`: read the bounded sample and build the per-column table; the
boundary turns every internal failure into the returned error line. -/
def csv_info (env : InfoEnv) : Except String String :=
  match
    (match env.read with
     | .error e => Except.error e
     | .ok df => Except.ok (infoReport df)) with
  | .ok s => .ok s
  | .error e => .ok ("❌ Erro no diagnóstico: " ++ e)

/-- Did the operation return a string (rather than let an exception
propagate past its boundary)? -/
def returnsString (r : Except String String) : Bool :=
  match r with
  | .ok _ => true
  | .error _ => false

/-- Insertion of a rational into an ascending sorted list. -/
def insertRat (x : Rat) : List Rat → List Rat
  | [] => [x]
  | y :: ys => if x ≤ y then x :: y :: ys else y :: insertRat x ys

/-- Ascending insertion sort, the order `Series.quantile` works over. -/
def sortRat (l : List Rat) : List Rat := l.foldr insertRat []

/-- `Series.quantile(p)` with pandas' default linear interpolation: position
`p*(n-1)` in the ascending sort, interpolating between the two neighbours. -/
def quantile (xs : List Rat) (p : Rat) : Rat :=
  let s := sortRat xs
  if s.length = 0 then 0
  else
    let h := p * ((s.length : Rat) - 1)
    let i := (⌊h⌋).toNat
    s.getD i 0 + (h - ((⌊h⌋ : Int) : Rat)) * (s.getD (min (i + 1) (s.length - 1)) 0 - s.getD i 0)

/-- The outlier rows of `analyze_csv`:
`df[(df[value_col] < q1 - 1.5 * iqr) | (df[value_col] > q3 + 1.5 * iqr)]`
restricted to the value column, with `q1 = quantile(0.25)`,
`q3 = quantile(0.75)` and `iqr = q3 - q1`. -/
def iqr_outliers (xs : List Rat) : List Rat :=
  xs.filter (fun x =>
    decide (x < quantile xs (1/4) - (3/2) * (quantile xs (3/4) - quantile xs (1/4))) ||
    decide (quantile xs (3/4) + (3/2) * (quantile xs (3/4) - quantile xs (1/4)) < x))

/-- A value column whose quartiles are exactly Q1 = 100 and Q3 = 300 and
that contains the boundary value 600 = Q3 + 1.5·IQR. -/
def exColA : List Rat := [0, 100, 200, 300, 600]

/-- The same quartiles but with 600.01, just past the boundary. -/
def exColB : List Rat := [0, 100, 200, 300, 60001/100]

/-- One row of the monthly-trend computation: the date cell after
`pd.to_datetime(errors="coerce")` (a linearised calendar-month index, `none`
when the date was unparseable) together with the value cell. -/
abbrev TrendRow := Option Nat × Rat

/-- The rows whose dates parsed (the `valid_dates` mask), keyed by month. -/
def valid_rows (rows : List TrendRow) : List (Nat × Rat) :=
  rows.filterMap (fun r => r.1.map (fun m => (m, r.2)))

/-- `(~valid_dates).sum()`: the number of excluded rows that is reported. -/
def invalid_count (rows : List TrendRow) : Nat :=
  rows.countP (fun r => r.1.isNone)

/-- The distinct months of the valid rows in ascending order (the key order
`groupby` produces). -/
def trend_months (rows : List TrendRow) : List Nat :=
  ((valid_rows rows).map Prod.fst).toFinset.sort (· ≤ ·)

/-- `groupby(month)[value].agg("sum")` at one month. -/
def month_sum (rows : List TrendRow) (m : Nat) : Rat :=
  (((valid_rows rows).filter (fun v => v.1 == m)).map Prod.snd).sum

/-- `groupby(month)[value].agg("count")` at one month. -/
def month_count (rows : List TrendRow) (m : Nat) : Nat :=
  ((valid_rows rows).filter (fun v => v.1 == m)).length

/-- `.tail(k)`: the last `k` entries in unchanged order. -/
def lastK (k : Nat) (l : List Nat) : List Nat := l.drop (l.length - k)

/-- The data behind the monthly-trend section: the reported count of
excluded rows, and the `(month, sum, count)` table after `.tail(12)`. -/
def monthly_trend (rows : List TrendRow) : Nat × List (Nat × Rat × Nat) :=
  (invalid_count rows,
   (lastK 12 (trend_months rows)).map (fun m => (m, month_sum rows m, month_count rows m)))

/-- Example rows: two valid months and one unparseable date. -/
def exTrend : List TrendRow := [(some 3, 10), (none, 5), (some 3, 2), (some 7, 1)]

/-- The three chart shapes `analyze_csv` can render. -/
inductive ChartKind where
  | monthly
  | topCategories
  | columnMeans
deriving DecidableEq

/-- "Trend data exists": date and value roles present and at least one valid
date (`date_col and value_col and valid_dates.sum() > 0`). -/
def trendDataPresent (hasDate hasValue : Bool) (validDates : Nat) : Bool :=
  hasDate && hasValue && decide (0 < validDates)

/-- The chart the code picks: the monthly condition, then
`elif cat_col and value_col`, then the column-means fallback. -/
def chooseChart (hasDate hasValue hasCat : Bool) (validDates : Nat) : ChartKind :=
  if trendDataPresent hasDate hasValue validDates then .monthly
  else if hasCat && hasValue then .topCategories
  else .columnMeans

/-- Modelled from the spec's words, for comparison with `chooseChart`:
"monthly bar chart (if trend data exists), horizontal bar of top categories
(if category ranking exists), or bar of column-wise means (fallback)" —
where, per the Report Builder section, the category ranking exists whenever
a category-role column exists (with or without a value column). -/
def chooseChartSpec (hasDate hasValue hasCat : Bool) (validDates : Nat) : ChartKind :=
  if trendDataPresent hasDate hasValue validDates then .monthly
  else if hasCat then .topCategories
  else .columnMeans

/-- The chart block appended to the report: the saved-path section on
success, the warning line when rendering raised. -/
def chartSection (render : Except String String) : String :=
  match render with
  | .ok path => "## 📈 Gráfico\nSalvo em: `" ++ path ++ "`\n"
  | .error e => "⚠️ Gráfico não gerado: " ++ e ++ "\n"

/-- The full report text: the already-built sections followed by the chart
block (the `try`/`except` around rendering only ever replaces the block). -/
def reportWithChart (sections : String) (render : Except String String) : String :=
  sections ++ chartSection render

/-- A concrete environment whose (expanded) path does not exist. -/
def envMissing : CsvEnv :=
  ⟨fun p => p, fun _ => false, fun _ => Except.error "decode", Except.error "auto"⟩

/-- A concrete environment whose path exists but where every fixed-format
attempt and the automatic fallback raise. -/
def envUnreadable : CsvEnv :=
  ⟨fun p => p, fun _ => true, fun _ => Except.error "decode", Except.error "auto"⟩

end DataClaw

namespace DataClaw

/-- First-match characterization of `List.find?`: a hit splits the list with
only misses before it, and a miss means every element fails the test. -/
theorem find?_first_match {α : Type} (p : α → Bool) (l : List α) :
    (∀ a, l.find? p = some a →
      ∃ l₁ l₂, l = l₁ ++ a :: l₂ ∧ p a = true ∧ ∀ x ∈ l₁, p x = false) ∧
    (l.find? p = none → ∀ x ∈ l, p x = false) := by
  induction l with
  | nil =>
    exact ⟨fun a h => by simp [List.find?] at h, fun _ x hx => by simp at hx⟩
  | cons b t ih =>
    by_cases hb : p b = true
    · refine ⟨fun a h => ?_, fun h => ?_⟩
      · rw [List.find?_cons_of_pos _ hb] at h
        cases h
        exact ⟨[], t, rfl, hb, by simp⟩
      · rw [List.find?_cons_of_pos _ hb] at h
        cases h
    · have hb' : p b = false := by simpa using hb
      refine ⟨fun a h => ?_, fun h x hx => ?_⟩
      · rw [List.find?_cons_of_neg _ (by simp [hb'])] at h
        obtain ⟨l₁, l₂, heq, hpa, hall⟩ := ih.1 a h
        refine ⟨b :: l₁, l₂, by rw [heq]; rfl, hpa, ?_⟩
        intro x hx
        rcases List.mem_cons.mp hx with rfl | hx
        · exact hb'
        · exact hall x hx
      · rw [List.find?_cons_of_neg _ (by simp [hb'])] at h
        rcases List.mem_cons.mp hx with rfl | hx
        · exact hb'
        · exact ih.2 h x hx

/-- C1: with threshold 0.70, the Numeric Coercion Filter commits exactly when
the ratio of parseable cells to total cells is at least 0.70; on commit the
result is the numeric column whose entries are precisely the per-cell parses
(missing exactly at the non-parseable cells, position by position), and below
the threshold the original text column is returned cell-for-cell unchanged. -/
theorem coerce_majority_contract (cells : List (Option String)) :
    ((7 : Rat) / 10 ≤ ((cells.countP (fun c => (parseCell c).isSome) : Nat) : Rat) / ((max cells.length 1 : Nat) : Rat) →
      coerce_numeric_if_majority cells (7 / 10) = Column.numeric (cells.map parseCell)) ∧
    (((cells.countP (fun c => (parseCell c).isSome) : Nat) : Rat) / ((max cells.length 1 : Nat) : Rat) < (7 : Rat) / 10 →
      coerce_numeric_if_majority cells (7 / 10) = Column.text cells) ∧
    (cells.map parseCell).length = cells.length ∧
    (∀ i (h : i < cells.length),
      (cells.map parseCell).get ⟨i, by simpa using h⟩ = parseCell (cells.get ⟨i, h⟩)) := by
  have hratio : valid_ratio cells =
      ((cells.countP (fun c => (parseCell c).isSome) : Nat) : Rat) / ((max cells.length 1 : Nat) : Rat) := by
    unfold valid_ratio
    rw [List.countP_map]
    rfl
  refine ⟨?_, ?_, by simp, ?_⟩
  · intro hle
    unfold coerce_numeric_if_majority
    rw [if_pos (hratio ▸ hle)]
  · intro hlt
    unfold coerce_numeric_if_majority
    rw [if_neg (by rw [hratio]; exact not_le.mpr hlt)]
  · intro i h
    simp [List.get_map]

/-- Witness for C1: the spec's end-to-end scenario, a four-cell column that is
75% parseable, is committed with exactly the cell "dez" marked missing. -/
theorem coerce_majority_contract_witness :
    coerce_numeric_if_majority [some "5", some "10", some "dez", some "7"] (7 / 10) =
      Column.numeric [some 5, some 10, none, some 7] := by
  have h := (coerce_majority_contract [some "5", some "10", some "dez", some "7"]).1
  rw [show ([some "5", some "10", some "dez", some "7"].countP (fun c => (parseCell c).isSome)) = 3 from rfl,
    show ([some "5", some "10", some "dez", some "7"] : List (Option String)).length = 4 from rfl,
    show max (4 : Nat) 1 = 4 from rfl] at h
  have h2 := h (by norm_num)
  rw [h2,
    show List.map parseCell [some "5", some "10", some "dez", some "7"] =
      [some (((5 : Nat) : Rat)), some (((10 : Nat) : Rat)), none, some (((7 : Nat) : Rat))] from rfl]
  norm_num

/-- C9: on the empty column the denominator of the ratio is clamped to 1
(never zero), the computed ratio is 0, and for every positive threshold the
filter returns the original empty text column unchanged. -/
theorem empty_column_coercion_safe :
    max ([] : List (Option String)).length 1 = 1 ∧
    valid_ratio [] = 0 ∧
    ∀ t : Rat, 0 < t → coerce_numeric_if_majority [] t = Column.text [] := by
  have h0 : valid_ratio [] = 0 := by simp [valid_ratio]
  refine ⟨rfl, h0, fun t ht => ?_⟩
  unfold coerce_numeric_if_majority
  rw [if_neg]
  intro hle
  rw [h0] at hle
  exact absurd hle (not_le.mpr ht)

/-- Witness for C9: at the default threshold 0.70 the empty column is
returned as the original (empty) text column. -/
theorem empty_column_coercion_safe_witness :
    coerce_numeric_if_majority [] (7 / 10) = Column.text [] :=
  empty_column_coercion_safe.2.2 (7 / 10) (by norm_num)

/-- C2: each role is assigned to the first column, left to right, whose
lowercased name contains one of that role's keywords, and to none (not an
error) when no column matches; moreover on every permutation of
["ID_Venda","Data","Total_Venda","Categoria"] the detector selects
Total_Venda as value, Data as date and Categoria as category. -/
theorem detectar_colunas_first_match :
    (∀ df : DataFrame,
      ((detectar_colunas df).1 = none → ∀ c ∈ df.columns, roleMatch value_keywords c = false) ∧
      (∀ v, (detectar_colunas df).1 = some v →
        ∃ l₁ l₂, df.columns = l₁ ++ v :: l₂ ∧ roleMatch value_keywords v = true ∧
          ∀ c ∈ l₁, roleMatch value_keywords c = false) ∧
      ((detectar_colunas df).2.1 = none → ∀ c ∈ df.columns, roleMatch date_keywords c = false) ∧
      (∀ v, (detectar_colunas df).2.1 = some v →
        ∃ l₁ l₂, df.columns = l₁ ++ v :: l₂ ∧ roleMatch date_keywords v = true ∧
          ∀ c ∈ l₁, roleMatch date_keywords c = false) ∧
      ((detectar_colunas df).2.2 = none → ∀ c ∈ df.columns, roleMatch cat_keywords c = false) ∧
      (∀ v, (detectar_colunas df).2.2 = some v →
        ∃ l₁ l₂, df.columns = l₁ ++ v :: l₂ ∧ roleMatch cat_keywords v = true ∧
          ∀ c ∈ l₁, roleMatch cat_keywords c = false)) ∧
    (∀ p : List String, p.Perm ["ID_Venda", "Data", "Total_Venda", "Categoria"] →
      detectar_colunas ⟨p, []⟩ = (some "Total_Venda", some "Data", some "Categoria")) := by
  constructor
  · intro df
    exact ⟨(find?_first_match (roleMatch value_keywords) df.columns).2,
      fun v => (find?_first_match (roleMatch value_keywords) df.columns).1 v,
      (find?_first_match (roleMatch date_keywords) df.columns).2,
      fun v => (find?_first_match (roleMatch date_keywords) df.columns).1 v,
      (find?_first_match (roleMatch cat_keywords) df.columns).2,
      fun v => (find?_first_match (roleMatch cat_keywords) df.columns).1 v⟩
  · have hall : (List.permutations' ["ID_Venda", "Data", "Total_Venda", "Categoria"]).all
        (fun p => decide (detectar_colunas ⟨p, []⟩ =
          (some "Total_Venda", some "Data", some "Categoria"))) = true := by decide
    intro p hp
    have hm : p ∈ List.permutations' ["ID_Venda", "Data", "Total_Venda", "Categoria"] :=
      List.mem_permutations'.mpr hp
    exact of_decide_eq_true (List.all_eq_true.mp hall p hm)

/-- Witness for C2: on the spec's four-column table the value role is the
column Total_Venda with both earlier columns failing the keyword test, and on
a concrete reversed permutation the detector still picks the same triple. -/
theorem detectar_colunas_first_match_witness :
    (∃ l₁ l₂, ["ID_Venda", "Data", "Total_Venda", "Categoria"] = l₁ ++ "Total_Venda" :: l₂ ∧
      roleMatch value_keywords "Total_Venda" = true ∧
      ∀ c ∈ l₁, roleMatch value_keywords c = false) ∧
    detectar_colunas ⟨["Categoria", "Total_Venda", "Data", "ID_Venda"], []⟩ =
      (some "Total_Venda", some "Data", some "Categoria") :=
  ⟨((detectar_colunas_first_match.1 ⟨["ID_Venda", "Data", "Total_Venda", "Categoria"], []⟩).2.1)
    "Total_Venda" (by rfl),
   detectar_colunas_first_match.2 ["Categoria", "Total_Venda", "Data", "ID_Venda"] (by decide)⟩

/-- C10: the role detector reads only the column names: two data frames with
identical column-name sequences receive identical role assignments whatever
their rows. -/
theorem detectar_colunas_depends_only_on_columns (df₁ df₂ : DataFrame)
    (h : df₁.columns = df₂.columns) : detectar_colunas df₁ = detectar_colunas df₂ := by
  unfold detectar_colunas
  rw [h]

/-- Witness for C10: same column names, different cell contents and row
counts, same role assignment. -/
theorem detectar_colunas_depends_only_on_columns_witness :
    detectar_colunas ⟨["Data", "Total"], [[some "2024-01-01", some "10"]]⟩ =
      detectar_colunas ⟨["Data", "Total"], []⟩ :=
  detectar_colunas_depends_only_on_columns _ _ rfl

/-- `drop_duplicates` only keeps rows of its input and its output has no
duplicate row values (bounded recursion measure made explicit). -/
theorem drop_duplicates_mem_nodup (n : Nat) :
    ∀ t : List Row, t.length ≤ n →
      (∀ x ∈ drop_duplicates t, x ∈ t) ∧ (drop_duplicates t).Nodup := by
  induction n with
  | zero =>
    intro t ht
    rw [List.length_eq_zero.mp (Nat.le_zero.mp ht)]
    simp [drop_duplicates]
  | succ n ih =>
    intro t ht
    match t with
    | [] => simp [drop_duplicates]
    | r :: rs =>
      have hlen : (rs.filter (fun x => decide (x ≠ r))).length ≤ n :=
        le_trans (List.length_filter_le _ _) (Nat.le_of_succ_le_succ ht)
      obtain ⟨hmem, hnd⟩ := ih _ hlen
      rw [drop_duplicates]
      refine ⟨?_, ?_⟩
      · intro x hx
        rcases List.mem_cons.mp hx with rfl | hx
        · exact List.mem_cons_self _ _
        · exact List.mem_cons_of_mem _ (List.mem_of_mem_filter (hmem x hx))
      · refine List.nodup_cons.mpr ⟨?_, hnd⟩
        intro hr
        have h1 := List.of_mem_filter (hmem _ hr)
        simp at h1

/-- On an input without duplicate rows, `drop_duplicates` is the identity. -/
theorem drop_duplicates_eq_self (t : List Row) (h : t.Nodup) : drop_duplicates t = t := by
  induction t with
  | nil => simp [drop_duplicates]
  | cons r rs ih =>
    rw [drop_duplicates]
    have hfil : rs.filter (fun x => decide (x ≠ r)) = rs := by
      apply List.filter_eq_self.mpr
      intro a ha
      simp only [decide_eq_true_eq]
      rintro rfl
      exact (List.nodup_cons.mp h).1 ha
    rw [hfil, ih (List.nodup_cons.mp h).2]

/-- Dropping fully-empty rows twice is the same as dropping them once. -/
theorem dropna_all_idem (t : List Row) : dropna_all (dropna_all t) = dropna_all t := by
  simp [dropna_all, List.filter_filter]

/-- The combined cleaning step is idempotent. -/
theorem clean_table_idem (t : List Row) : clean_table (clean_table t) = clean_table t := by
  unfold clean_table
  have h1 : (drop_duplicates t).Nodup := (drop_duplicates_mem_nodup t.length t le_rfl).2
  have h2 : (dropna_all (drop_duplicates t)).Nodup := h1.filter _
  rw [drop_duplicates_eq_self _ h2, dropna_all_idem]

/-- The encoding loop returns nothing exactly when every encoding's fixed
format parse raises. -/
theorem tryEncodings_eq_none (env : CsvEnv) (l : List String) :
    tryEncodings env l = none ↔ ∀ enc ∈ l, ∃ e, env.readFixed enc = .error e := by
  induction l with
  | nil => simp [tryEncodings]
  | cons a rest ih =>
    cases hr : env.readFixed a with
    | ok t =>
      constructor
      · intro h
        rw [tryEncodings, hr] at h
        cases h
      · intro h
        obtain ⟨e, he⟩ := h a (List.mem_cons_self _ _)
        rw [hr] at he
        cases he
    | error e =>
      constructor
      · intro h enc henc
        rw [tryEncodings, hr] at h
        rcases List.mem_cons.mp henc with rfl | henc
        · exact ⟨e, hr⟩
        · exact (ih.mp h) enc henc
      · intro h
        rw [tryEncodings, hr]
        exact ih.mpr (fun enc henc => h enc (List.mem_cons_of_mem _ henc))

/-- C3: `FileNotFound` is raised exactly when the user-expanded path does not
exist, before (independently of) any parse attempt; `UnreadableFile` is
raised exactly when the path exists, all three encodings fail and the
automatic-delimiter fallback raises, and it carries the fallback's cause; in
every other case a table is returned. -/
theorem load_csv_robust_error_contract (path : String) (env : CsvEnv) :
    ((∃ m, load_csv_robust path env = .fileNotFound m) ↔
      env.pathExists (env.expandUser path) = false) ∧
    (env.pathExists (env.expandUser path) = false →
      (load_csv_robust path env =
        .fileNotFound ("Arquivo não encontrado: " ++ env.expandUser path) ∧
      ∀ env' : CsvEnv, env'.expandUser = env.expandUser →
        env'.pathExists = env.pathExists →
        load_csv_robust path env' = load_csv_robust path env)) ∧
    ((∃ c, load_csv_robust path env = .unreadableFile c) ↔
      env.pathExists (env.expandUser path) = true ∧
      (∀ enc ∈ encodings, ∃ e, env.readFixed enc = .error e) ∧
      ∃ e, env.readAuto = .error e) ∧
    (∀ e, env.pathExists (env.expandUser path) = true →
      tryEncodings env encodings = none → env.readAuto = .error e →
      load_csv_robust path env =
        .unreadableFile ("Não foi possível ler o arquivo: " ++ e)) ∧
    (env.pathExists (env.expandUser path) = true →
      ((∃ t, tryEncodings env encodings = some t) ∨ ∃ t, env.readAuto = .ok t) →
      ∃ tbl, load_csv_robust path env = .ok tbl) := by
  cases hpe : env.pathExists (env.expandUser path) with
  | false =>
    have hload : load_csv_robust path env =
        .fileNotFound ("Arquivo não encontrado: " ++ env.expandUser path) := by
      unfold load_csv_robust
      rw [hpe]
      simp
    refine ⟨⟨fun _ => rfl, fun _ => ⟨_, hload⟩⟩, fun _ => ⟨hload, ?_⟩, ⟨?_, ?_⟩, ?_, ?_⟩
    · intro env' he hp
      have hload' : load_csv_robust path env' =
          .fileNotFound ("Arquivo não encontrado: " ++ env.expandUser path) := by
        unfold load_csv_robust
        rw [he, hp, hpe]
        simp
      rw [hload, hload']
    · intro hc
      obtain ⟨c, hc⟩ := hc
      rw [hload] at hc
      cases hc
    · rintro ⟨hT, -⟩
      exact Bool.noConfusion hT
    · intro e hT
      exact Bool.noConfusion hT
    · intro hT
      exact Bool.noConfusion hT
  | true =>
    have hcond : ¬(env.pathExists (env.expandUser path) = false) := by
      rw [hpe]
      simp
    cases htry : tryEncodings env encodings with
    | some t =>
      have hload : load_csv_robust path env = .ok (processLoaded t) := by
        unfold load_csv_robust
        rw [if_neg hcond, htry]
      refine ⟨⟨?_, fun hF => Bool.noConfusion hF⟩, fun hF => Bool.noConfusion hF,
        ⟨?_, ?_⟩, ?_, ?_⟩
      · intro hm
        obtain ⟨m, hm⟩ := hm
        rw [hload] at hm
        cases hm
      · intro hc
        obtain ⟨c, hc⟩ := hc
        rw [hload] at hc
        cases hc
      · rintro ⟨-, hall, -⟩
        have h0 := (tryEncodings_eq_none env encodings).mpr hall
        rw [htry] at h0
        cases h0
      · intro e _ htry' _
        cases htry'
      · intro _ _
        exact ⟨_, hload⟩
    | none =>
      cases hauto : env.readAuto with
      | ok t =>
        have hload : load_csv_robust path env = .ok (processLoaded t) := by
          unfold load_csv_robust
          rw [if_neg hcond, htry, hauto]
        refine ⟨⟨?_, fun hF => Bool.noConfusion hF⟩, fun hF => Bool.noConfusion hF,
          ⟨?_, ?_⟩, ?_, ?_⟩
        · intro hm
          obtain ⟨m, hm⟩ := hm
          rw [hload] at hm
          cases hm
        · intro hc
          obtain ⟨c, hc⟩ := hc
          rw [hload] at hc
          cases hc
        · rintro ⟨-, -, e, he⟩
          cases he
        · intro e _ _ he
          cases he
        · intro _ _
          exact ⟨_, hload⟩
      | error e =>
        have hload : load_csv_robust path env =
            .unreadableFile ("Não foi possível ler o arquivo: " ++ e) := by
          unfold load_csv_robust
          rw [if_neg hcond, htry, hauto]
        refine ⟨⟨?_, fun hF => Bool.noConfusion hF⟩, fun hF => Bool.noConfusion hF,
          ⟨fun _ => ⟨rfl, (tryEncodings_eq_none env encodings).mp htry, e, rfl⟩,
           fun _ => ⟨_, hload⟩⟩, ?_, ?_⟩
        · intro hm
          obtain ⟨m, hm⟩ := hm
          rw [hload] at hm
          cases hm
        · intro e' _ _ he'
          cases he'
          exact hload
        · intro _ hor
          rcases hor with ⟨t, ht⟩ | ⟨t, ht⟩
          · cases ht
          · cases ht

/-- Witness for C3: on a concrete environment without the file the loader
reports FileNotFound, and on one where every parse attempt raises it reports
UnreadableFile carrying the automatic fallback's cause. -/
theorem load_csv_robust_error_contract_witness :
    load_csv_robust "vendas.csv" envMissing =
      LoadResult.fileNotFound ("Arquivo não encontrado: " ++ "vendas.csv") ∧
    load_csv_robust "vendas.csv" envUnreadable =
      LoadResult.unreadableFile ("Não foi possível ler o arquivo: " ++ "auto") :=
  ⟨((load_csv_robust_error_contract "vendas.csv" envMissing).2.1 rfl).1,
   (load_csv_robust_error_contract "vendas.csv" envUnreadable).2.2.2.1 "auto" rfl rfl rfl⟩

/-- C6: running the Cleaner a second time on the table it wrote removes zero
rows: the second run reports equal before and after counts and writes the
same table again. -/
theorem clean_csv_idempotent (t : List Row) :
    (clean_csv_rows (clean_csv_rows t).table).linhas_antes =
      (clean_csv_rows (clean_csv_rows t).table).linhas_depois ∧
    (clean_csv_rows (clean_csv_rows t).table).table = (clean_csv_rows t).table := by
  have h := clean_table_idem t
  constructor
  · simp [clean_csv_rows, h]
  · simp [clean_csv_rows, h]

/-- C4: each of the three public operations returns a string for every
input; every internal failure — load error, report building, read or write —
is converted into a user-readable failure message, never raised past the
tool boundary. -/
theorem tools_never_raise :
    (∀ env : AnalyzeEnv, returnsString (analyze_csv env) = true) ∧
    (∀ env : CleanEnv, returnsString (clean_csv env) = true) ∧
    (∀ env : InfoEnv, returnsString (csv_info env) = true) := by
  refine ⟨fun env => ?_, fun env => ?_, fun env => ?_⟩
  · unfold analyze_csv
    cases load_csv_robust env.path env.csv with
    | fileNotFound m => rfl
    | unreadableFile c => rfl
    | ok df =>
      cases hb : env.buildReport df with
      | ok r => simp [returnsString, hb]
      | error e => simp [returnsString, hb]
  · unfold clean_csv
    cases env.read with
    | error e => rfl
    | ok t =>
      cases hw : env.write (clean_csv_rows t).table with
      | error e => simp [returnsString, hw]
      | ok p => simp [returnsString, hw]
  · unfold csv_info
    cases env.read with
    | error e => rfl
    | ok df => rfl

/-- Membership in the outlier selection is strict-inequality membership in
either tail. -/
theorem mem_iqr_outliers (xs : List Rat) (x : Rat) :
    x ∈ iqr_outliers xs ↔ x ∈ xs ∧
      (x < quantile xs (1/4) - (3/2) * (quantile xs (3/4) - quantile xs (1/4)) ∨
       quantile xs (3/4) + (3/2) * (quantile xs (3/4) - quantile xs (1/4)) < x) := by
  unfold iqr_outliers
  rw [List.mem_filter]
  simp only [Bool.or_eq_true, decide_eq_true_eq]

/-- C5: a value is flagged as outlier exactly when it is strictly below
Q1 − 1.5·IQR or strictly above Q3 + 1.5·IQR; on a column with Q1 = 100 and
Q3 = 300 the value 600 = Q3 + 1.5·IQR is not flagged, while 600.01 is. -/
theorem iqr_outliers_strict_boundary :
    (∀ (xs : List Rat) (x : Rat),
      x ∈ iqr_outliers xs ↔ x ∈ xs ∧
        (x < quantile xs (1/4) - (3/2) * (quantile xs (3/4) - quantile xs (1/4)) ∨
         quantile xs (3/4) + (3/2) * (quantile xs (3/4) - quantile xs (1/4)) < x)) ∧
    (quantile exColA (1/4) = 100 ∧ quantile exColA (3/4) = 300 ∧
      (600 : Rat) ∉ iqr_outliers exColA) ∧
    (quantile exColB (1/4) = 100 ∧ quantile exColB (3/4) = 300 ∧
      (60001/100 : Rat) ∈ iqr_outliers exColB) := by
  refine ⟨mem_iqr_outliers, ⟨?_, ?_, ?_⟩, ⟨?_, ?_, ?_⟩⟩
  · norm_num [quantile, sortRat, insertRat, List.getD, exColA]
  · norm_num [quantile, sortRat, insertRat, List.getD, exColA]
    simp only [show Int.toNat 3 = 3 from rfl]
    norm_num
  · norm_num [iqr_outliers, quantile, sortRat, insertRat, List.getD, exColA]
    simp only [show Int.toNat 3 = 3 from rfl]
    norm_num
  · norm_num [quantile, sortRat, insertRat, List.getD, exColB]
  · norm_num [quantile, sortRat, insertRat, List.getD, exColB]
    simp only [show Int.toNat 3 = 3 from rfl]
    norm_num
  · norm_num [iqr_outliers, quantile, sortRat, insertRat, List.getD, exColB]
    simp only [show Int.toNat 3 = 3 from rfl]
    norm_num

/-- C7: the monthly-trend section reports as excluded exactly the rows whose
date did not parse; the table shown groups the remaining rows by calendar
month carrying the per-month sum and count of the value; the months shown
are at most 12, ascending (chronological), they all are months of valid
rows, a month of the data is a month of a valid row, and every month left
out strictly precedes every month shown (so the shown ones are the most
recent). -/
theorem monthly_trend_contract (rows : List TrendRow) :
    (monthly_trend rows).1 = rows.countP (fun r => r.1 = none) ∧
    ((monthly_trend rows).2.map Prod.fst).Sorted (· < ·) ∧
    (monthly_trend rows).2.length ≤ 12 ∧
    (∀ m : Nat, m ∈ trend_months rows ↔ ∃ r ∈ rows, r.1 = some m) ∧
    (∀ m ∈ trend_months rows, m ∉ (monthly_trend rows).2.map Prod.fst →
      ∀ m' ∈ (monthly_trend rows).2.map Prod.fst, m < m') ∧
    (∀ e ∈ (monthly_trend rows).2,
      e.2.1 = (((valid_rows rows).filter (fun v => v.1 == e.1)).map Prod.snd).sum ∧
      e.2.2 = ((valid_rows rows).filter (fun v => v.1 == e.1)).length ∧
      e.1 ∈ trend_months rows) := by
  have hmap : (monthly_trend rows).2.map Prod.fst = lastK 12 (trend_months rows) := by
    simp only [monthly_trend, List.map_map]
    have hid : (Prod.fst ∘ fun m : Nat => (m, month_sum rows m, month_count rows m)) = id := rfl
    rw [hid, List.map_id]
  have hsorted : (trend_months rows).Pairwise (· < ·) := Finset.sort_sorted_lt _
  refine ⟨?_, ?_, ?_, ?_, ?_, ?_⟩
  · have hpq : (fun r : TrendRow => r.1.isNone) = (fun r : TrendRow => decide (r.1 = none)) := by
      funext r
      cases h : r.1 <;> simp [h]
    simp only [monthly_trend, invalid_count]
    exact congrArg (fun p => List.countP p rows) hpq
  · rw [hmap]
    exact hsorted.sublist (List.drop_sublist _ _)
  · simp only [monthly_trend, List.length_map, lastK, List.length_drop]
    omega
  · intro m
    unfold trend_months
    rw [Finset.mem_sort, List.mem_toFinset]
    constructor
    · intro h
      obtain ⟨p, hp, hfst⟩ := List.mem_map.mp h
      obtain ⟨r, hr, hfr⟩ := List.mem_filterMap.mp hp
      obtain ⟨a, ha, hfa⟩ := Option.map_eq_some'.mp hfr
      refine ⟨r, hr, ?_⟩
      rw [ha, ← hfst, ← hfa]
    · rintro ⟨r, hr, hr1⟩
      apply List.mem_map.mpr
      refine ⟨(m, r.2), ?_, rfl⟩
      apply List.mem_filterMap.mpr
      exact ⟨r, hr, by rw [hr1]; rfl⟩
  · intro m hm hnot m' hm'
    rw [hmap] at hnot hm'
    have hsplit := List.take_append_drop ((trend_months rows).length - 12) (trend_months rows)
    have hmtake : m ∈ (trend_months rows).take ((trend_months rows).length - 12) := by
      have hm2 : m ∈ (trend_months rows).take ((trend_months rows).length - 12) ++
          (trend_months rows).drop ((trend_months rows).length - 12) := by
        rw [hsplit]
        exact hm
      rcases List.mem_append.mp hm2 with h | h
      · exact h
      · exact absurd h hnot
    have hp2 : ((trend_months rows).take ((trend_months rows).length - 12) ++
        (trend_months rows).drop ((trend_months rows).length - 12)).Pairwise (· < ·) := by
      rw [hsplit]
      exact hsorted
    exact (List.pairwise_append.mp hp2).2.2 m hmtake m' hm'
  · intro e he
    simp only [monthly_trend] at he
    obtain ⟨m, hm, rfl⟩ := List.mem_map.mp he
    exact ⟨rfl, rfl, List.mem_of_mem_drop hm⟩

/-- Witness for C7: on the example rows, month 3 is a trend month through a
concrete valid row, and exactly one row is reported excluded. -/
theorem monthly_trend_contract_witness :
    3 ∈ trend_months exTrend ∧ (monthly_trend exTrend).1 = 1 :=
  ⟨((monthly_trend_contract exTrend).2.2.2.1 3).mpr
      ⟨(some 3, 10), List.mem_cons_self _ _, rfl⟩,
   (monthly_trend_contract exTrend).1.trans (by decide)⟩

/-- Counterexample to C8 as stated: with a category-role column but no
value-role column the category ranking exists (the section ranks by row
count), yet the chart code falls through to the column-means fallback
because its middle branch also requires a value column. -/
theorem chart_choice_counterexample :
    chooseChart false false true 1 = ChartKind.columnMeans ∧
    chooseChartSpec false false true 1 = ChartKind.topCategories ∧
    chooseChart false false true 1 ≠ chooseChartSpec false false true 1 := by
  refine ⟨rfl, rfl, ?_⟩
  decide

/-- C8 amended: exactly one of the three shapes is chosen — the monthly bar
chart when trend data exists; otherwise the top-categories bar when both a
category-role and a value-role column exist; otherwise the column-means
bar — and a rendering failure only replaces the chart block with the
warning line, leaving every earlier section of the report unchanged. -/
theorem chart_choice_amended (hasDate hasValue hasCat : Bool) (validDates : Nat) :
    (chooseChart hasDate hasValue hasCat validDates = ChartKind.monthly ↔
      hasDate = true ∧ hasValue = true ∧ 0 < validDates) ∧
    (chooseChart hasDate hasValue hasCat validDates = ChartKind.topCategories ↔
      ¬(hasDate = true ∧ hasValue = true ∧ 0 < validDates) ∧
      hasCat = true ∧ hasValue = true) ∧
    (chooseChart hasDate hasValue hasCat validDates = ChartKind.columnMeans ↔
      ¬(hasDate = true ∧ hasValue = true ∧ 0 < validDates) ∧
      ¬(hasCat = true ∧ hasValue = true)) ∧
    (∀ sections e, reportWithChart sections (Except.error e) =
      sections ++ ("⚠️ Gráfico não gerado: " ++ e ++ "\n")) ∧
    (∀ sections path, reportWithChart sections (Except.ok path) =
      sections ++ ("## 📈 Gráfico\nSalvo em: `" ++ path ++ "`\n")) ∧
    (∀ sections render, ∃ tail, reportWithChart sections render = sections ++ tail) := by
  refine ⟨?_, ?_, ?_, fun sections e => rfl, fun sections path => rfl,
    fun sections render => ⟨chartSection render, rfl⟩⟩
  all_goals
    cases hasDate <;> cases hasValue <;> cases hasCat <;>
      by_cases hv : 0 < validDates <;>
      simp [chooseChart, trendDataPresent, hv]

/-- Witness for C8 (amended): with all roles present and five valid dates
the monthly chart is chosen. -/
theorem chart_choice_amended_witness :
    chooseChart true true true 5 = ChartKind.monthly :=
  ((chart_choice_amended true true true 5).1).mpr ⟨rfl, rfl, by norm_num⟩

end DataClaw
